import Mathlib

/-!
Verification of the message-processing pipeline of a Telegram channel
downloader (the `DownloadChannel` class and its `modules/messages.js`
helpers) against its natural-language specification.

The JavaScript source is shallowly embedded: each relevant function is
translated into an executable Lean definition over explicit state, with
the external transport (network calls, timers, the file system) modelled
as explicit inputs and outputs.  Machine behaviour that the claims do not
depend on (progress logging, random jitter on waits) is elided; every
branch and every state mutation of the embedded functions follows the
source.
-/

namespace TgDl

/-! ## Data model

A Telegram message as consumed by the pipeline.  In the source, messages
are duck-typed objects; the pipeline inspects `message.message` (text,
falsy when absent — modelled as the empty string), `message.media` (an
object with optional `poll` / `geo` / `contact` / `venue` / `webpage`
payloads and `photo` / `document` / `video` / `audio` / `voice`
presence), a top-level `sticker` field, and further top-level presence
flags read only by `hasContent`. -/

structure PollAnswer where
  text : String
deriving Repr, DecidableEq

structure PollData where
  question : String
  answers : List PollAnswer
deriving Repr, DecidableEq

/-- Geo payload; `lat` and `long` are kept in their rendered (string)
form, which is all the upload path uses them for. -/
structure GeoData where
  lat : String
  long : String
deriving Repr, DecidableEq

/-- Contact payload; `lastName` models the JS `contact.lastName || ''`
rendering, so an absent last name is the empty string. -/
structure ContactData where
  firstName : String
  lastName : String
  phoneNumber : String
deriving Repr, DecidableEq

structure VenueData where
  title : String
  address : String
deriving Repr, DecidableEq

/-- Webpage payload; `title` is the already-defaulted rendering of
`webpage.title || 'Webpage'`, `description` of
`webpage.description || ''`; `photo` records whether the webpage carries
an embedded preview image. -/
structure WebpageData where
  url : String
  title : String
  description : String
  photo : Bool
deriving Repr, DecidableEq

/-- The `message.media` object.  `mediaType` and `ext` model the results
of the external helpers `getMediaType(message)` and the lowercased
extension of `getMediaPath(message, outputFolder)` (helpers that live in
`utils/helper`, outside the embedded sources); the pipeline only ever
uses those two derived tokens, so they are carried as fields. -/
structure Media where
  photo : Bool
  document : Bool
  video : Bool
  audio : Bool
  voice : Bool
  poll : Option PollData
  geo : Option GeoData
  contact : Option ContactData
  venue : Option VenueData
  webpage : Option WebpageData
  mediaType : String
  ext : String
deriving Repr, DecidableEq

structure Message where
  id : Nat
  /-- `message.message`; the empty string models a falsy/absent text. -/
  message : String
  media : Option Media
  sticker : Bool
  /-- Top-level presence flags inspected by `hasContent` only. -/
  documentFlag : Bool
  photoFlag : Bool
  videoFlag : Bool
  audioFlag : Bool
  voiceFlag : Bool
  pollFlag : Bool
  geoFlag : Bool
  contactFlag : Bool
  venueFlag : Bool
  webpageFlag : Bool
deriving Repr, DecidableEq

/-- The `downloadableFiles` policy object: `flags` models the lookup
`downloadableFiles?.[token]` (absent keys are falsy), `all` the wildcard
flag. -/
structure DownloadPolicy where
  flags : String → Bool
  all : Bool

/-! ## Content Classifier (`hasContent`, `shouldProcess`) -/

/-- Embeds `DownloadChannel.hasContent`: the disjunction of the truthiness
of `message.message`, `message.media`, and the top-level presence
flags, in source order. -/
def hasContent (m : Message) : Bool :=
  (m.message != "") || m.media.isSome || m.sticker ||
    m.documentFlag || m.photoFlag || m.videoFlag || m.audioFlag ||
    m.voiceFlag || m.pollFlag || m.geoFlag || m.contactFlag ||
    m.venueFlag || m.webpageFlag

/-- Embeds `DownloadChannel.shouldProcess`:

* `if (!this.hasContent(message)) return false;`
* `if (message.message && !message.media) return true;`
* `if (message.media) return downloadableFiles?.[mediaType] ||
  downloadableFiles?.[extension] || downloadableFiles?.all;`
* `return true;` -/
def shouldProcess (policy : DownloadPolicy) (m : Message) : Bool :=
  if !hasContent m then false
  else if (m.message != "") && m.media.isNone then true
  else match m.media with
    | some md => policy.flags md.mediaType || policy.flags md.ext || policy.all
    | none => true

/-- A sample policy enabling only the token "video". -/
def samplePolicy : DownloadPolicy :=
  ⟨fun t => t == "video", false⟩

/-- A plain text message with no attachment and all flags clear. -/
def sampleTextMsg : Message :=
  ⟨1, "hello", none, false, false, false, false, false, false,
   false, false, false, false, false⟩

/-- A media descriptor for a photo whose derived tokens are "image"/"jpg". -/
def samplePhotoMedia : Media :=
  ⟨true, false, false, false, false, none, none, none, none, none,
   "image", "jpg"⟩

/-- A message carrying `samplePhotoMedia` and no text. -/
def samplePhotoMsg : Message :=
  ⟨2, "", some samplePhotoMedia, false, false, false, false, false,
   false, false, false, false, false, false⟩

/-- A message with no content at all. -/
def sampleEmptyMsg : Message :=
  ⟨3, "", none, false, false, false, false, false, false,
   false, false, false, false, false⟩

/-- Claim C5: `shouldProcess` returns true for every message with
non-empty text and no attachment, regardless of policy; for every message
with an attachment it returns true iff the policy enables the message's
media kind, or the extension inferred from its media path, or has the
wildcard `all` flag; and it returns false for every message without
content. -/
theorem C5_shouldProcess_spec :
    (∀ (p : DownloadPolicy) (m : Message),
        m.message ≠ "" → m.media = none → shouldProcess p m = true)
  ∧ (∀ (p : DownloadPolicy) (m : Message) (md : Media),
        m.media = some md →
        (shouldProcess p m = true ↔
          (p.flags md.mediaType || p.flags md.ext || p.all) = true))
  ∧ (∀ (p : DownloadPolicy) (m : Message),
        hasContent m = false → shouldProcess p m = false) := by
  refine ⟨?_, ?_, ?_⟩
  · intro p m htext hmedia
    have hne : (m.message != "") = true := by
      simpa [bne_iff_ne] using htext
    simp [shouldProcess, hasContent, hmedia, hne]
  · intro p m md hmedia
    simp [shouldProcess, hasContent, hmedia]
  · intro p m h
    simp [shouldProcess, h]

/-- Witness for C5 at concrete inputs: a text-only message is kept under
a restrictive policy, a photo under the same policy is rejected exactly as
the flag disjunction says, and the contentless message is dropped. -/
theorem C5_shouldProcess_spec_witness :
    shouldProcess samplePolicy sampleTextMsg = true
  ∧ (shouldProcess samplePolicy samplePhotoMsg = true ↔
      (samplePolicy.flags samplePhotoMedia.mediaType ||
        samplePolicy.flags samplePhotoMedia.ext || samplePolicy.all) = true)
  ∧ shouldProcess samplePolicy sampleEmptyMsg = false :=
  ⟨C5_shouldProcess_spec.1 samplePolicy sampleTextMsg (by decide) rfl,
   C5_shouldProcess_spec.2.1 samplePolicy samplePhotoMsg samplePhotoMedia rfl,
   C5_shouldProcess_spec.2.2 samplePolicy sampleEmptyMsg (by decide)⟩

/-! ## Progress counters

Process-local counters of the `DownloadChannel` instance. -/

structure Counters where
  totalDownloaded : Nat
  totalUploaded : Nat
  totalMessages : Nat
  totalProcessedMessages : Nat
  skippedFiles : Nat
deriving Repr, DecidableEq

def sampleCounters : Counters := ⟨3, 2, 50, 40, 1⟩

/-! ## Checkpoint store and the `configureDownload` offset logic -/

/-- The persisted selection, as read back by `getLastSelection` (a
`utils/file-helper` accessor outside the embedded sources; modelled from
the spec as a key-value checkpoint store returning
`channelId`/`messageOffsetId`, either possibly absent). -/
structure Checkpoint where
  channelId : Option Int
  messageOffsetId : Option Nat
deriving Repr, DecidableEq

/-- Embeds the offset computation at the end of
`DownloadChannel.configureDownload`:

* `let messageOffsetId = lastSelection.messageOffsetId || 0;`
* `if (Number(lastSelection.channelId) !== Number(channelId))
  messageOffsetId = 0;`

Channel identifiers are modelled as integers (both sides pass through the
`Number()` coercion); an absent stored id (`Number(undefined)` is `NaN`,
unequal to every number) is `none`. -/
def configuredOffset (last : Checkpoint) (channelId : Int) : Nat :=
  let off := last.messageOffsetId.getD 0
  if last.channelId ≠ some channelId then 0 else off

/-- Claim C8: a checkpoint stored for channel A followed by configuring
channel B with A ≠ B yields offset 0; moreover a non-zero offset can only
survive when the stored channel equals the configured one. -/
theorem C8_channel_switch_resets_offset :
    (∀ (a b : Int) (off : Nat), a ≠ b →
        configuredOffset ⟨some a, some off⟩ b = 0)
  ∧ (∀ (last : Checkpoint) (b : Int),
        configuredOffset last b ≠ 0 → last.channelId = some b) := by
  constructor
  · intro a b off hab
    simp [configuredOffset]
    intro h
    exact absurd h hab
  · intro last b h
    by_contra hne
    exact h (by simp [configuredOffset, hne])

/-- Witness for C8: switching from channel 1 (offset 999) to channel 2
resets to 0; keeping channel 5 with offset 7 implies the stored channel
is 5. -/
theorem C8_channel_switch_resets_offset_witness :
    configuredOffset ⟨some 1, some 999⟩ 2 = 0
  ∧ (⟨some 5, some 7⟩ : Checkpoint).channelId = some 5 :=
  ⟨C8_channel_switch_resets_offset.1 1 2 999 (by decide),
   C8_channel_switch_resets_offset.2 ⟨some 5, some 7⟩ 5 (by decide)⟩

/-! ## String helpers: `includes` and `match(/\d+/)` -/

/-- Contiguous-occurrence test on character lists; `containsSeg needle
hay` is true iff `needle` occurs as a contiguous segment of `hay`. -/
def containsSeg (needle : List Char) : List Char → Bool
  | [] => needle.isEmpty
  | c :: t => needle.isPrefixOf (c :: t) || containsSeg needle t

/-- Embeds the JS `hay.includes(needle)`. -/
def strContains (hay needle : String) : Bool :=
  containsSeg needle.data hay.data

/-- First maximal run of decimal digits, embedding
`s.match(/\d+/)?.[0]`. -/
def firstDigitRun : List Char → Option (List Char)
  | [] => none
  | c :: t =>
    if c.isDigit then some (c :: t.takeWhile Char.isDigit)
    else firstDigitRun t

/-- Value of a digit string, as `parseInt` computes it on an all-digit
input. -/
def digitsToNat (ds : List Char) : Nat :=
  ds.foldl (fun n c => 10 * n + (c.toNat - 48)) 0

/-- Embeds `parseInt(err.message.match(/\d+/)?.[0] || "300")`: the first
decimal run of the message, or 300 when the message has none. -/
def floodHintSeconds (errMsg : String) : Nat :=
  match firstDigitRun errMsg.data with
  | some ds => digitsToNat ds
  | none => 300

/-! ## Page Driver error handling (`downloadChannel` catch block) -/

inductive CatchAction where
  /-- Wait `waitMs` milliseconds, then re-invoke `downloadChannel` with
  `offsetMsgId`. -/
  | retry (waitMs : Nat) (offsetMsgId : Nat)
  /-- Re-throw the error to the caller. -/
  | rethrow
deriving Repr, DecidableEq

/-- Embeds the `catch` block of `DownloadChannel.downloadChannel`:

* `if (err.message && err.message.includes("FLOOD_WAIT")) { const
  waitTime = parseInt(err.message.match(/\d+/)?.[0] || "300") * 1000;
  await this.wait(waitTime); return await this.downloadChannel(client,
  channelId, offsetMsgId); }`
* `throw err;`

(A string containing `"FLOOD_WAIT"` is non-empty, so the truthiness
guard on `err.message` is subsumed by the containment test.)  The
progress counters are returned unchanged: the block does not touch
them. -/
def downloadChannelCatch (st : Counters) (errMsg : String)
    (offsetMsgId : Nat) : CatchAction × Counters :=
  if strContains errMsg "FLOOD_WAIT" then
    (CatchAction.retry (floodHintSeconds errMsg * 1000) offsetMsgId, st)
  else (CatchAction.rethrow, st)

/-- Claim C7: a caught flood-wait error makes the driver sleep for the
number of seconds given by the decimal hint in the error message, then
re-invoke the same page fetch with the identical (non-advanced)
`offsetMsgId`; the error is not re-thrown and the counters are left
unchanged.  The closed conjunct checks the scenario: hint "120" yields a
120000 ms (120 s) wait. -/
theorem C7_flood_wait_retry_same_offset :
    (∀ (st : Counters) (errMsg : String) (offset : Nat),
        strContains errMsg "FLOOD_WAIT" = true →
        downloadChannelCatch st errMsg offset =
          (CatchAction.retry (floodHintSeconds errMsg * 1000) offset, st))
  ∧ floodHintSeconds "A wait of 120 seconds is required (FLOOD_WAIT)" = 120 := by
  constructor
  · intro st errMsg offset h
    simp [downloadChannelCatch, h]
  · decide

/-- Witness for C7 at a concrete flood-wait error. -/
theorem C7_flood_wait_retry_same_offset_witness :
    strContains "FLOOD_WAIT_120" "FLOOD_WAIT" = true
  ∧ downloadChannelCatch sampleCounters "FLOOD_WAIT_120" 7 =
      (CatchAction.retry (floodHintSeconds "FLOOD_WAIT_120" * 1000) 7,
        sampleCounters) :=
  ⟨by decide,
   C7_flood_wait_retry_same_offset.1 sampleCounters "FLOOD_WAIT_120" 7
     (by decide)⟩

/-- A digit-free character list has no digit run. -/
theorem firstDigitRun_of_no_digit (l : List Char)
    (h : l.all (fun c => !c.isDigit) = true) : firstDigitRun l = none := by
  induction l with
  | nil => rfl
  | cons c t ih =>
    have hc : c.isDigit = false := by
      have := (List.all_eq_true.mp h) c (List.mem_cons_self c t)
      simpa using this
    have ht : t.all (fun c => !c.isDigit) = true := by
      rw [List.all_eq_true] at h ⊢
      intro x hx
      exact h x (List.mem_cons_of_mem c hx)
    simp [firstDigitRun, hc, ih ht]

/-- Claim C10: a caught flood-wait error whose message has no decimal
digit falls back to the default 300-second wait (300000 ms) before
re-invoking the same page fetch. -/
theorem C10_flood_wait_default_300 :
    ∀ (st : Counters) (errMsg : String) (offset : Nat),
      strContains errMsg "FLOOD_WAIT" = true →
      errMsg.data.all (fun c => !c.isDigit) = true →
      downloadChannelCatch st errMsg offset =
        (CatchAction.retry 300000 offset, st) := by
  intro st errMsg offset h hd
  simp [downloadChannelCatch, h, floodHintSeconds,
    firstDigitRun_of_no_digit errMsg.data hd]

/-- Witness for C10: the bare message "FLOOD_WAIT" has no digits and
yields the 300 s default. -/
theorem C10_flood_wait_default_300_witness :
    strContains "FLOOD_WAIT" "FLOOD_WAIT" = true
  ∧ "FLOOD_WAIT".data.all (fun c => !c.isDigit) = true
  ∧ downloadChannelCatch sampleCounters "FLOOD_WAIT" 9 =
      (CatchAction.retry 300000 9, sampleCounters) :=
  ⟨by decide, by decide,
   C10_flood_wait_default_300 sampleCounters "FLOOD_WAIT" 9
     (by decide) (by decide)⟩

/-! ## Rate Governor (`checkRateLimit`) -/

structure RateState where
  requestCount : Nat
  lastRequestTime : Int
deriving Repr, DecidableEq

/-- Embeds `DownloadChannel.checkRateLimit` (times in ms; the random
0–500 ms jitter added by `wait` is elided, the returned number is the
requested wait):

* `const timeSinceLastRequest = now - this.lastRequestTime;`
* `if (this.requestCount > 15 && timeSinceLastRequest < 60000) { await
  this.wait(60000); this.requestCount = 0; }`
* `this.lastRequestTime = now; this.requestCount++;` -/
def checkRateLimit (st : RateState) (now : Int) : RateState × Nat :=
  if 15 < st.requestCount ∧ now - st.lastRequestTime < 60000 then
    (⟨1, now⟩, 60000)
  else (⟨st.requestCount + 1, now⟩, 0)

/-- Constructor state: `requestCount = 0`, `lastRequestTime = 0`. -/
def rlInit : RateState := ⟨0, 0⟩

/-- Runs the gate over a list of call times; returns the wait (ms)
imposed on each call — 60000 exactly on the cooling calls. -/
def rlWaits : RateState → List Int → List Nat
  | _, [] => []
  | st, t :: ts =>
    let s := checkRateLimit st t
    s.2 :: rlWaits s.1 ts

/-- Number of gated calls up to and including call `i` lying in the
sliding 60 s window ending at call `i` (the spec's window reading). -/
def windowCount (times : List Int) (i : Nat) : Nat :=
  ((List.range (i + 1)).filter
    (fun j => times.getD i 0 - times.getD j 0 < 60000)).length

/-- Seventeen calls spaced 30 s apart. -/
def spreadTimes : List Int :=
  (List.range 17).map (fun k => 30000 * (k : Int))

/-- Counterexample to claim C3 as stated: on seventeen calls spaced 30 s
apart, the seventeenth call triggers the 60 s cooling wait although only
2 gated calls (not more than 15) lie inside the sliding 60-second window
ending at that call — the code's trigger counts calls since the last
reset and only checks the gap to the immediately preceding call. -/
theorem C3_not_sliding_window_counterexample :
    (rlWaits rlInit spreadTimes).getD 16 0 = 60000
  ∧ windowCount spreadTimes 16 = 2
  ∧ ¬ 15 < windowCount spreadTimes 16 := by
  refine ⟨by decide, by decide, by decide⟩

/-- Modelled from the amended claim's words: cooling is entered exactly
when more than 15 gated calls have occurred since the last counter reset
and the previous gated call was less than 60 seconds before the current
one; the cooling action is a single 60 s wait after which the counter
resets (the current call then counts as the first); every call is
admitted.  `sinceReset` counts the gated calls since the last reset and
`lastT` is the time of the previous gated call. -/
def specWaits : Nat → Int → List Int → List Nat
  | _, _, [] => []
  | sinceReset, lastT, t :: ts =>
    if 15 < sinceReset ∧ t - lastT < 60000 then
      60000 :: specWaits 1 t ts
    else 0 :: specWaits (sinceReset + 1) t ts

theorem rlWaits_eq_specWaits (ts : List Int) :
    ∀ (c : Nat) (lt : Int), rlWaits ⟨c, lt⟩ ts = specWaits c lt ts := by
  induction ts with
  | nil => intro c lt; rfl
  | cons t ts ih =>
    intro c lt
    by_cases h : 15 < c ∧ t - lt < 60000
    · simp [rlWaits, specWaits, checkRateLimit, h, ih]
    · simp [rlWaits, specWaits, checkRateLimit, h, ih]

theorem rlWaits_length (ts : List Int) :
    ∀ (st : RateState), (rlWaits st ts).length = ts.length := by
  induction ts with
  | nil => intro st; rfl
  | cons t ts ih => intro st; simp [rlWaits, ih]

/-- Claim C3 (amended): the admission gate cools (a single 60 s blocking
wait, counter reset to zero before the current call is counted) exactly
when more than 15 gated calls have occurred since the last reset and the
previous gated call was less than 60 seconds earlier — not over a sliding
window; and every call is admitted (one wait entry per call, never a
rejection). -/
theorem C3_rate_governor_amended :
    (∀ (ts : List Int), rlWaits rlInit ts = specWaits 0 0 ts)
  ∧ (∀ (ts : List Int), (rlWaits rlInit ts).length = ts.length) :=
  ⟨fun ts => rlWaits_eq_specWaits ts 0 0, fun ts => rlWaits_length ts rlInit⟩

/-! ## Local filesystem model -/

/-- The set of paths that exist on disk. -/
structure Disk where
  files : List String
deriving Repr, DecidableEq

def Disk.hasFile (d : Disk) (p : String) : Bool :=
  d.files.contains p

def Disk.addAll (d : Disk) (ps : List String) : Disk :=
  ⟨ps ++ d.files⟩

def Disk.remove (d : Disk) (p : String) : Disk :=
  ⟨d.files.filter (fun q => q != p)⟩

/-- Directory part of a path: everything before the last `/`, embedding
`path.dirname` on the slash-joined paths this pipeline builds. -/
def dirname (p : String) : String :=
  String.intercalate "/" ((p.splitOn "/").dropLast)

/-- Modelled from the spec: `getMediaPath` (a `utils/helper` function
outside the embedded sources) computes "a canonical local path from
message id + inferred extension" inside the output folder. -/
def mediaPath (outputFolder : String) (m : Message) : String :=
  outputFolder ++ "/" ++ toString m.id ++ "." ++
    (match m.media with
     | some md => md.ext
     | none => "unknown")

/-- Modelled from the spec: `checkFileExist` (a `utils/helper` function
outside the embedded sources) — whether the canonical media path of the
message already exists on disk. -/
def checkFileExist (m : Message) (outputFolder : String) (d : Disk) : Bool :=
  d.hasFile (mediaPath outputFolder m)

/-! ## Media Transfer: download side (`downloadMessageMedia`,
`DownloadChannel.downloadMessage`) -/

/-- Outcome of one call into the external transport
(`client.downloadMedia`, `client.forwardMessages`,
`client.sendMessage`): it either resolves or throws. -/
inductive TransferOutcome where
  | ok
  | threw (err : String)
deriving Repr, DecidableEq

/-- Which branch of `downloadMessageMedia` performed the work. -/
inductive MediaBranch where
  /-- Webpage without embedded photo: sidecar text file, no transfer. -/
  | webpageOnly
  | pollSidecar
  | geoSidecar
  | contactSidecar
  | venueSidecar
  /-- The `client.downloadMedia` byte transfer to the media path (also
  the webpage-with-photo case, retargeted to `..._webpage_image.jpeg`). -/
  | byteTransfer
  /-- The sticker-specific branch, reached only when `message.media` is
  falsy and `message.sticker` truthy. -/
  | stickerTransfer
  /-- `No downloadable media found`: returns false. -/
  | noMedia
deriving Repr, DecidableEq

structure MediaDlResult where
  /-- The boolean return of `downloadMessageMedia`. -/
  ret : Bool
  branch : MediaBranch
  /-- Paths created on disk by this call. -/
  wrote : List String
deriving Repr, DecidableEq

/-- Continues `downloadMessageMedia` after the webpage handling: the
`poll` / `geo` / `contact` / `venue` sidecar branches in source order,
then the `client.downloadMedia` byte transfer to `mPath`; a throw during
the transfer is caught by the function's `catch`, which returns
`false`. -/
def mediaAfterWebpage (mId : Nat) (md : Media) (mPath : String)
    (transfer : TransferOutcome) (wrote : List String) : MediaDlResult :=
  match md.poll with
  | some _ =>
    ⟨true, MediaBranch.pollSidecar,
      wrote ++ [dirname mPath ++ "/" ++ toString mId ++ "_poll.json"]⟩
  | none =>
  match md.geo with
  | some _ =>
    ⟨true, MediaBranch.geoSidecar,
      wrote ++ [dirname mPath ++ "/" ++ toString mId ++ "_location.json"]⟩
  | none =>
  match md.contact with
  | some _ =>
    ⟨true, MediaBranch.contactSidecar,
      wrote ++ [dirname mPath ++ "/" ++ toString mId ++ "_contact.json"]⟩
  | none =>
  match md.venue with
  | some _ =>
    ⟨true, MediaBranch.venueSidecar,
      wrote ++ [dirname mPath ++ "/" ++ toString mId ++ "_venue.json"]⟩
  | none =>
    match transfer with
    | TransferOutcome.ok => ⟨true, MediaBranch.byteTransfer, wrote ++ [mPath]⟩
    | TransferOutcome.threw _ => ⟨false, MediaBranch.byteTransfer, wrote⟩

/-- Embeds `downloadMessageMedia` from `modules/messages.js`.  When
`message.media` is present: the webpage branch writes a `_webpage.txt`
sidecar (when the webpage has a url) and either returns true (no photo)
or retargets the path to `_webpage_image.jpeg` and falls through; then
poll / geo / contact / venue sidecars; then the byte transfer.  When
`message.media` is falsy: the sticker branch transfers to
`_sticker.webp` and returns true, else returns false ("no downloadable
media").  A throw from `client.downloadMedia` is caught and turned into
`false`. -/
def downloadMessageMedia (m : Message) (mPath : String)
    (transfer : TransferOutcome) : MediaDlResult :=
  match m.media with
  | some md =>
    match md.webpage with
    | some wp =>
      let wroteWp : List String :=
        if wp.url != "" then
          [dirname mPath ++ "/" ++ toString m.id ++ "_webpage.txt"]
        else []
      if wp.photo then
        mediaAfterWebpage m.id md
          (dirname mPath ++ "/" ++ toString m.id ++ "_webpage_image.jpeg")
          transfer wroteWp
      else ⟨true, MediaBranch.webpageOnly, wroteWp⟩
    | none => mediaAfterWebpage m.id md mPath transfer []
  | none =>
    if m.sticker then
      match transfer with
      | TransferOutcome.ok =>
        ⟨true, MediaBranch.stickerTransfer,
          [dirname mPath ++ "/" ++ toString m.id ++ "_sticker.webp"]⟩
      | TransferOutcome.threw _ => ⟨false, MediaBranch.stickerTransfer, []⟩
    else ⟨false, MediaBranch.noMedia, []⟩

/-- Mutable state threaded through the per-message pipeline. -/
structure DlState where
  counters : Counters
  disk : Disk
deriving Repr, DecidableEq

/-- Result of one `DownloadChannel.downloadMessage` call. -/
structure DlOutcome where
  /-- The returned local path (`null` is `none`). -/
  ret : Option String
  st : DlState
  /-- The branch of `downloadMessageMedia` exercised, `none` when
  `downloadMessageMedia` was not invoked at all. -/
  branchUsed : Option MediaBranch
  /-- Number of `client.downloadMedia` byte-transfer invocations. -/
  transfers : Nat
deriving Repr, DecidableEq

def MediaDlResult.transferCount (r : MediaDlResult) : Nat :=
  if r.branch = MediaBranch.byteTransfer ∨
      r.branch = MediaBranch.stickerTransfer then 1 else 0

/-- Embeds `DownloadChannel.downloadMessage`:

* `if (!message.media) return null;`
* compute the canonical `mediaPath`; `if (fileExists) return mediaPath;`
  — the idempotent short-circuit, without transfer or counter change;
* `const result = await downloadMessageMedia(...); if (result) {
  this.totalDownloaded++; return mediaPath; }` — else fall through to
  `return null`.

The surrounding try/catch absorbs throws, but every throw source
(`client.downloadMedia`) is already absorbed inside
`downloadMessageMedia`, so the catch arm is unreachable here. -/
def downloadMessage (folder : String) (s : DlState) (m : Message)
    (transfer : TransferOutcome) : DlOutcome :=
  match m.media with
  | none => ⟨none, s, none, 0⟩
  | some _ =>
    let p := mediaPath folder m
    if checkFileExist m folder s.disk then ⟨some p, s, none, 0⟩
    else
      let r := downloadMessageMedia m p transfer
      if r.ret then
        ⟨some p,
         ⟨{ s.counters with totalDownloaded := s.counters.totalDownloaded + 1 },
          s.disk.addAll r.wrote⟩,
         some r.branch, r.transferCount⟩
      else ⟨none, ⟨s.counters, s.disk.addAll r.wrote⟩, some r.branch,
        r.transferCount⟩

/-- Claim C6: when the canonical media path already exists on disk,
`downloadMessage` returns that path with the state (counters and disk)
untouched, performing no byte transfer and not even entering
`downloadMessageMedia`; consequently two consecutive invocations under
that precondition both return the same path and together perform zero
transfers. -/
theorem C6_download_idempotent :
    ∀ (folder : String) (s : DlState) (m : Message)
      (t1 t2 : TransferOutcome) (md : Media),
      m.media = some md →
      checkFileExist m folder s.disk = true →
      downloadMessage folder s m t1 =
        ⟨some (mediaPath folder m), s, none, 0⟩
      ∧ downloadMessage folder (downloadMessage folder s m t1).st m t2 =
          ⟨some (mediaPath folder m), s, none, 0⟩ := by
  intro folder s m t1 t2 md hm hex
  have h1 : downloadMessage folder s m t1 =
      ⟨some (mediaPath folder m), s, none, 0⟩ := by
    simp [downloadMessage, hm, hex]
  refine ⟨h1, ?_⟩
  rw [h1]
  simp [downloadMessage, hm, hex]

/-- Witness for C6: a photo message whose canonical path is already on
disk is skipped twice, returning the path both times. -/
theorem C6_download_idempotent_witness :
    samplePhotoMsg.media = some samplePhotoMedia
  ∧ checkFileExist samplePhotoMsg "export/123" ⟨["export/123/2.jpg"]⟩ = true
  ∧ (downloadMessage "export/123" ⟨sampleCounters, ⟨["export/123/2.jpg"]⟩⟩
        samplePhotoMsg TransferOutcome.ok =
      ⟨some (mediaPath "export/123" samplePhotoMsg),
        ⟨sampleCounters, ⟨["export/123/2.jpg"]⟩⟩, none, 0⟩
    ∧ downloadMessage "export/123"
        (downloadMessage "export/123"
          ⟨sampleCounters, ⟨["export/123/2.jpg"]⟩⟩ samplePhotoMsg
          TransferOutcome.ok).st samplePhotoMsg TransferOutcome.ok =
      ⟨some (mediaPath "export/123" samplePhotoMsg),
        ⟨sampleCounters, ⟨["export/123/2.jpg"]⟩⟩, none, 0⟩) :=
  ⟨rfl, by decide,
   C6_download_idempotent "export/123"
     ⟨sampleCounters, ⟨["export/123/2.jpg"]⟩⟩ samplePhotoMsg
     TransferOutcome.ok TransferOutcome.ok samplePhotoMedia rfl (by decide)⟩

/-- `mediaAfterWebpage` never lands in the sticker branch. -/
theorem mediaAfterWebpage_not_sticker (mId : Nat) (md : Media)
    (mPath : String) (t : TransferOutcome) (w : List String) :
    (mediaAfterWebpage mId md mPath t w).branch ≠
      MediaBranch.stickerTransfer := by
  unfold mediaAfterWebpage
  cases md.poll <;> cases md.geo <;> cases md.contact <;> cases md.venue <;>
    cases t <;> simp

/-- With `message.media` present, `downloadMessageMedia` never takes the
sticker branch. -/
theorem downloadMessageMedia_not_sticker (m : Message) (md : Media)
    (mPath : String) (t : TransferOutcome) (hm : m.media = some md) :
    (downloadMessageMedia m mPath t).branch ≠
      MediaBranch.stickerTransfer := by
  cases hw : md.webpage with
  | none =>
    simp only [downloadMessageMedia, hm, hw]
    exact mediaAfterWebpage_not_sticker m.id md mPath t []
  | some wp =>
    by_cases hp : wp.photo = true
    · simp only [downloadMessageMedia, hm, hw, hp, if_true]
      exact mediaAfterWebpage_not_sticker m.id md
        (dirname mPath ++ "/" ++ toString m.id ++ "_webpage_image.jpeg") t
        (if (wp.url != "") = true then
          [dirname mPath ++ "/" ++ toString m.id ++ "_webpage.txt"] else [])
    · simp [downloadMessageMedia, hm, hw, eq_false_of_ne_true hp]

/-- Claim C9: a message without a media field makes `downloadMessage`
return `null` with all state unchanged and no media-routine call — even
when the message carries a sticker; and no invocation of
`downloadMessage` whatsoever can exercise the sticker-specific transfer
branch of `downloadMessageMedia`, because that branch requires a falsy
`message.media` while `downloadMessage` only calls the routine on a
truthy one. -/
theorem C9_sticker_branch_unreachable :
    (∀ (folder : String) (s : DlState) (m : Message) (t : TransferOutcome),
        m.media = none →
        downloadMessage folder s m t = ⟨none, s, none, 0⟩)
  ∧ (∀ (folder : String) (s : DlState) (m : Message) (t : TransferOutcome),
        (downloadMessage folder s m t).branchUsed ≠
          some MediaBranch.stickerTransfer) := by
  constructor
  · intro folder s m t hm
    simp [downloadMessage, hm]
  · intro folder s m t
    match hm : m.media with
    | none => simp [downloadMessage, hm]
    | some md =>
      by_cases hex : checkFileExist m folder s.disk = true
      · simp [downloadMessage, hm, hex]
      · have hex2 : checkFileExist m folder s.disk = false :=
          eq_false_of_ne_true hex
        have hb := downloadMessageMedia_not_sticker m md
          (mediaPath folder m) t hm
        by_cases hr : (downloadMessageMedia m (mediaPath folder m) t).ret = true
        · simp [downloadMessage, hm, hex2, hr, hb]
        · simp [downloadMessage, hm, hex2, eq_false_of_ne_true hr, hb]

/-- Witness for C9: a sticker-only message (no media field) yields
`null` and an unchanged state. -/
theorem C9_sticker_branch_unreachable_witness :
    downloadMessage "export/123" ⟨sampleCounters, ⟨[]⟩⟩
      ⟨4, "", none, true, false, false, false, false, false, false,
       false, false, false, false⟩ TransferOutcome.ok =
    ⟨none, ⟨sampleCounters, ⟨[]⟩⟩, none, 0⟩ :=
  C9_sticker_branch_unreachable.1 "export/123" ⟨sampleCounters, ⟨[]⟩⟩
    ⟨4, "", none, true, false, false, false, false, false, false,
     false, false, false, false⟩ TransferOutcome.ok rfl

/-! ## Media Transfer: upload side (`uploadMessageToChannel`) -/

/-- What the upload routine did at the transport. -/
inductive UploadAction where
  /-- `client.forwardMessages` succeeded and its result was returned. -/
  | forwarded
  /-- `client.sendMessage` was called with this body and with or without
  a file attachment. -/
  | sent (body : String) (hasFile : Bool)
deriving Repr, DecidableEq

/-- Result of `uploadMessageToChannel`: a truthy result, the falsy
no-content return, or a (re-wrapped) thrown error. -/
inductive UploadResult where
  | ok (action : UploadAction)
  | okFalse
  | err (msg : String)
deriving Repr, DecidableEq

/-- Poll summary body, embedding the template literal of the poll branch:
`📊 Poll: {question}\n\nOptions:\n{1. a1\n2. a2...}\n\n{originalCaption}`. -/
def pollBody (p : PollData) (caption : String) : String :=
  "📊 Poll: " ++ p.question ++ "\n\nOptions:\n" ++
    String.intercalate "\n"
      (p.answers.enum.map (fun e => toString (e.1 + 1) ++ ". " ++ e.2.text)) ++
    "\n\n" ++ caption

def geoBody (g : GeoData) (caption : String) : String :=
  "📍 Location: " ++ g.lat ++ ", " ++ g.long ++ "\n\n" ++ caption

def contactBody (c : ContactData) (caption : String) : String :=
  "👤 Contact: " ++ c.firstName ++ " " ++ c.lastName ++ "\nPhone: " ++
    c.phoneNumber ++ "\n\n" ++ caption

def venueBody (v : VenueData) (caption : String) : String :=
  "🏢 Venue: " ++ v.title ++ "\nAddress: " ++ v.address ++ "\n\n" ++ caption

def webpageBody (w : WebpageData) (caption : String) : String :=
  "🔗 " ++ w.title ++ "\n" ++ w.url ++ "\n" ++ w.description ++ "\n\n" ++
    caption

/-- The special-payload override chain of `uploadMessageToChannel` (in
source order: poll, geo, contact, venue, webpage): the synthesized body
replacing `uploadOptions.message`, or `none` when no structured payload
is present. -/
def specialBody (md : Media) (caption : String) : Option String :=
  match md.poll with
  | some p => some (pollBody p caption)
  | none =>
  match md.geo with
  | some g => some (geoBody g caption)
  | none =>
  match md.contact with
  | some c => some (contactBody c caption)
  | none =>
  match md.venue with
  | some v => some (venueBody v caption)
  | none =>
  match md.webpage with
  | some w => some (webpageBody w caption)
  | none => none

/-- Final `client.sendMessage` call: resolves to a truthy result or
throws (the outer catch re-wraps the message). -/
def finishSend (send : TransferOutcome) (body : String) (hasFile : Bool) :
    UploadResult :=
  match send with
  | TransferOutcome.ok => UploadResult.ok (UploadAction.sent body hasFile)
  | TransferOutcome.threw e =>
    UploadResult.err ("Failed to upload message: " ++ e)

/-- Embeds `uploadMessageToChannel` from `modules/messages.js`.

* `mediaPathExists` models `mediaPath && fs.existsSync(mediaPath)`;
* with media and a local file: attach it (`uploadOptions.file`), keep
  the original caption;
* with media and no local file: try `client.forwardMessages` and return
  its result on success; on a forward throw, fall back to attaching the
  original media reference (photo / document / video / audio / voice);
* then the structured payloads (poll / geo / contact / venue / webpage)
  override the body with a glyph-prefixed summary and
  `delete uploadOptions.file`;
* without media: a sticker is attached as a file; an all-whitespace
  caption returns false; otherwise a plain text send. -/
def uploadMessageToChannel (m : Message) (mediaPathExists : Bool)
    (fwd send : TransferOutcome) : UploadResult :=
  let caption := m.message
  match m.media with
  | some md =>
    if mediaPathExists then
      match specialBody md caption with
      | some b => finishSend send b false
      | none => finishSend send caption true
    else
      match fwd with
      | TransferOutcome.ok => UploadResult.ok UploadAction.forwarded
      | TransferOutcome.threw _ =>
        let hasFile := md.photo || md.document || md.video || md.audio ||
          md.voice
        match specialBody md caption with
        | some b => finishSend send b false
        | none => finishSend send caption hasFile
  | none =>
    if m.sticker then finishSend send caption true
    else if caption.trim == "" then UploadResult.okFalse
    else finishSend send caption false

/-- The poll payload of the spec scenario:
`{question: "Q", answers: [{text:"A"},{text:"B"}]}`. -/
def scenarioPoll : PollData := ⟨"Q", [⟨"A"⟩, ⟨"B"⟩]⟩

def scenarioPollMedia : Media :=
  ⟨false, false, false, false, false, some scenarioPoll, none, none, none,
   none, "poll", "json"⟩

def scenarioPollMsg : Message :=
  ⟨10, "", some scenarioPollMedia, false, false, false, false, false,
   false, false, false, false, false, false⟩

/-- Counterexample to claim C4 as stated: uploading the scenario poll
message when no local file exists and forwarding succeeds returns the
forward result — the routine never reaches the poll branch and no
synthesized text message is sent, contradicting "upload sends a plain
text message summarizing the structured fields" for every structured
payload. -/
theorem C4_poll_forwarded_counterexample :
    uploadMessageToChannel scenarioPollMsg false TransferOutcome.ok
      TransferOutcome.ok = UploadResult.ok UploadAction.forwarded := by
  decide

/-- On the non-forward paths (a local file exists, or the forward
attempt throws), any message with a structured payload is sent as plain
text with the `specialBody` summary and no file attached. -/
theorem upload_special_sent (m : Message) (md : Media) (b : String)
    (pe : Bool) (fwd : TransferOutcome) (hm : m.media = some md)
    (hb : specialBody md m.message = some b)
    (hcase : pe = true ∨ ∃ e, fwd = TransferOutcome.threw e) :
    uploadMessageToChannel m pe fwd TransferOutcome.ok =
      UploadResult.ok (UploadAction.sent b false) := by
  rcases hcase with hpe | ⟨e, hfwd⟩
  · simp [uploadMessageToChannel, hm, hpe, hb, finishSend]
  · cases hpe : pe with
    | true => simp [uploadMessageToChannel, hm, hb, finishSend]
    | false => simp [uploadMessageToChannel, hm, hfwd, hb, finishSend]

/-- Claim C4 (amended): when the early forward path is not taken — a
local file exists for the message, or the forward attempt throws —
every message carrying a structured non-file payload is uploaded as a
plain text message whose body is the payload-specific glyph-prefixed
summary with the original caption appended, and no file is attached:
the general conjunct covers whichever payload the source's override
chain selects, and one conjunct per payload kind (poll, geo, contact,
venue, webpage, in the source's if/else-if order) spells out the
corresponding glyph body; in the scenario the synthesized poll body
contains "Q", "1. A" and "2. B". -/
theorem C4_poll_text_only_upload :
    (∀ (m : Message) (md : Media) (b : String) (pe : Bool)
        (fwd : TransferOutcome),
        m.media = some md →
        specialBody md m.message = some b →
        (pe = true ∨ ∃ e, fwd = TransferOutcome.threw e) →
        uploadMessageToChannel m pe fwd TransferOutcome.ok =
          UploadResult.ok (UploadAction.sent b false))
  ∧ (∀ (m : Message) (md : Media) (p : PollData) (pe : Bool)
        (fwd : TransferOutcome),
        m.media = some md → md.poll = some p →
        (pe = true ∨ ∃ e, fwd = TransferOutcome.threw e) →
        uploadMessageToChannel m pe fwd TransferOutcome.ok =
          UploadResult.ok (UploadAction.sent (pollBody p m.message) false))
  ∧ (∀ (m : Message) (md : Media) (g : GeoData) (pe : Bool)
        (fwd : TransferOutcome),
        m.media = some md → md.poll = none → md.geo = some g →
        (pe = true ∨ ∃ e, fwd = TransferOutcome.threw e) →
        uploadMessageToChannel m pe fwd TransferOutcome.ok =
          UploadResult.ok (UploadAction.sent (geoBody g m.message) false))
  ∧ (∀ (m : Message) (md : Media) (c : ContactData) (pe : Bool)
        (fwd : TransferOutcome),
        m.media = some md → md.poll = none → md.geo = none →
        md.contact = some c →
        (pe = true ∨ ∃ e, fwd = TransferOutcome.threw e) →
        uploadMessageToChannel m pe fwd TransferOutcome.ok =
          UploadResult.ok
            (UploadAction.sent (contactBody c m.message) false))
  ∧ (∀ (m : Message) (md : Media) (v : VenueData) (pe : Bool)
        (fwd : TransferOutcome),
        m.media = some md → md.poll = none → md.geo = none →
        md.contact = none → md.venue = some v →
        (pe = true ∨ ∃ e, fwd = TransferOutcome.threw e) →
        uploadMessageToChannel m pe fwd TransferOutcome.ok =
          UploadResult.ok (UploadAction.sent (venueBody v m.message) false))
  ∧ (∀ (m : Message) (md : Media) (w : WebpageData) (pe : Bool)
        (fwd : TransferOutcome),
        m.media = some md → md.poll = none → md.geo = none →
        md.contact = none → md.venue = none → md.webpage = some w →
        (pe = true ∨ ∃ e, fwd = TransferOutcome.threw e) →
        uploadMessageToChannel m pe fwd TransferOutcome.ok =
          UploadResult.ok
            (UploadAction.sent (webpageBody w m.message) false))
  ∧ (strContains (pollBody scenarioPoll "") "Q" = true
     ∧ strContains (pollBody scenarioPoll "") "1. A" = true
     ∧ strContains (pollBody scenarioPoll "") "2. B" = true) := by
  refine ⟨?_, ?_, ?_, ?_, ?_, ?_, by decide, by decide, by decide⟩
  · intro m md b pe fwd hm hb hcase
    exact upload_special_sent m md b pe fwd hm hb hcase
  · intro m md p pe fwd hm hp hcase
    exact upload_special_sent m md (pollBody p m.message) pe fwd hm
      (by simp [specialBody, hp]) hcase
  · intro m md g pe fwd hm hp hg hcase
    exact upload_special_sent m md (geoBody g m.message) pe fwd hm
      (by simp [specialBody, hp, hg]) hcase
  · intro m md c pe fwd hm hp hg hc hcase
    exact upload_special_sent m md (contactBody c m.message) pe fwd hm
      (by simp [specialBody, hp, hg, hc]) hcase
  · intro m md v pe fwd hm hp hg hc hv hcase
    exact upload_special_sent m md (venueBody v m.message) pe fwd hm
      (by simp [specialBody, hp, hg, hc, hv]) hcase
  · intro m md w pe fwd hm hp hg hc hv hw hcase
    exact upload_special_sent m md (webpageBody w m.message) pe fwd hm
      (by simp [specialBody, hp, hg, hc, hv, hw]) hcase

/-- A geo payload message for the witness. -/
def scenarioGeo : GeoData := ⟨"12.5", "41.9"⟩

def scenarioGeoMedia : Media :=
  ⟨false, false, false, false, false, none, some scenarioGeo, none, none,
   none, "geo", "json"⟩

def scenarioGeoMsg : Message :=
  ⟨11, "", some scenarioGeoMedia, false, false, false, false, false,
   false, false, false, false, false, false⟩

/-- Witness for the amended C4: the poll scenario with a failing
forward, and a geo payload with a local file present, both yield the
glyph summary as a text-only send. -/
theorem C4_poll_text_only_upload_witness :
    (uploadMessageToChannel scenarioPollMsg false
        (TransferOutcome.threw "FORWARD_FAILED") TransferOutcome.ok =
      UploadResult.ok
        (UploadAction.sent (pollBody scenarioPoll scenarioPollMsg.message)
          false))
  ∧ (uploadMessageToChannel scenarioGeoMsg true TransferOutcome.ok
        TransferOutcome.ok =
      UploadResult.ok
        (UploadAction.sent (geoBody scenarioGeo scenarioGeoMsg.message)
          false)) :=
  ⟨C4_poll_text_only_upload.2.1 scenarioPollMsg scenarioPollMedia
     scenarioPoll false (TransferOutcome.threw "FORWARD_FAILED") rfl rfl
     (Or.inr ⟨"FORWARD_FAILED", rfl⟩),
   C4_poll_text_only_upload.2.2.1 scenarioGeoMsg scenarioGeoMedia
     scenarioGeo true TransferOutcome.ok rfl rfl rfl (Or.inl rfl)⟩

/-! ## Per-message pipeline (`DownloadChannel.uploadMessage`,
`DownloadChannel.processMessage`) -/

/-- Embeds `DownloadChannel.uploadMessage`:

* `if (!this.uploadMode || !this.targetChannelId) return false;`
* call `uploadMessageToChannel`; on a truthy result increment
  `totalUploaded` and delete the local file when it exists (best-effort
  cleanup); the surrounding catch turns any throw into a logged `false`
  return. -/
def uploadMessage (uploadMode : Bool) (target : Option Int) (s : DlState)
    (m : Message) (mPath : Option String) (fwd send : TransferOutcome) :
    Bool × DlState :=
  if !uploadMode || target.isNone then (false, s)
  else
    let pe := match mPath with
      | some p => s.disk.hasFile p
      | none => false
    match uploadMessageToChannel m pe fwd send with
    | UploadResult.ok _ =>
      let d := match mPath with
        | some p => if s.disk.hasFile p then s.disk.remove p else s.disk
        | none => s.disk
      (true,
        ⟨{ s.counters with totalUploaded := s.counters.totalUploaded + 1 },
         d⟩)
    | UploadResult.okFalse => (false, s)
    | UploadResult.err _ => (false, s)

/-- The transport outcomes a single `processMessage` invocation may
consume: the media and sticker `downloadMessage` calls, the forward
attempt and the send.  `TransferOutcome.threw` models a failing
(throwing) network call. -/
structure MsgOutcomes where
  dlMedia : TransferOutcome
  dlSticker : TransferOutcome
  fwd : TransferOutcome
  send : TransferOutcome
deriving Repr, DecidableEq

/-- Embeds `DownloadChannel.processMessage`: text detection
(`message.message && message.message.trim()`), the media and sticker
download steps (each followed by a delay, elided), the conditional
upload, then `this.totalProcessedMessages++`.  The body's try/catch
cannot fire on the modelled throw sources because `downloadMessage` and
`uploadMessage` each absorb their own errors, so the increment at the
end of the try block is always reached. -/
def processMessage (uploadMode : Bool) (target : Option Int)
    (folder : String) (s : DlState) (m : Message) (o : MsgOutcomes) :
    DlState :=
  let hasText := m.message.trim != ""
  let r1 : DlState × Option String :=
    if m.media.isSome then
      let r := downloadMessage folder s m o.dlMedia
      (r.st, r.ret)
    else (s, none)
  let r2 : DlState × Option String :=
    if m.sticker then
      let r := downloadMessage folder r1.1 m o.dlSticker
      (r.st, r.ret)
    else r1
  let hasContentL := hasText || m.media.isSome || m.sticker
  let s3 : DlState :=
    if uploadMode && hasContentL then
      (uploadMessage uploadMode target r2.1 m r2.2 o.fwd o.send).2
    else r2.1
  ⟨{ s3.counters with totalProcessedMessages :=
      s3.counters.totalProcessedMessages + 1 }, s3.disk⟩

theorem downloadMessage_keeps_processed (folder : String) (s : DlState)
    (m : Message) (t : TransferOutcome) :
    (downloadMessage folder s m t).st.counters.totalProcessedMessages =
      s.counters.totalProcessedMessages := by
  cases hm : m.media with
  | none => simp [downloadMessage, hm]
  | some md =>
    by_cases hex : checkFileExist m folder s.disk = true
    · simp [downloadMessage, hm, hex]
    · by_cases hr : (downloadMessageMedia m (mediaPath folder m) t).ret = true
      · simp [downloadMessage, hm, eq_false_of_ne_true hex, hr]
      · simp [downloadMessage, hm, eq_false_of_ne_true hex,
          eq_false_of_ne_true hr]

theorem uploadMessage_keeps_processed (um : Bool) (tg : Option Int)
    (s : DlState) (m : Message) (mp : Option String)
    (fwd send : TransferOutcome) :
    (uploadMessage um tg s m mp fwd send).2.counters.totalProcessedMessages =
      s.counters.totalProcessedMessages := by
  by_cases hg : (!um || tg.isNone) = true
  · simp [uploadMessage, hg]
  · cases mp with
    | none =>
      simp only [uploadMessage, hg]
      cases uploadMessageToChannel m false fwd send <;> simp [hg]
    | some p =>
      simp only [uploadMessage, hg]
      cases uploadMessageToChannel m (s.disk.hasFile p) fwd send <;>
        simp [hg]

/-- Each `processMessage` invocation increments the processed counter by
exactly one, whatever the transport outcomes. -/
theorem processMessage_processed_succ (um : Bool) (tg : Option Int)
    (folder : String) (s : DlState) (m : Message) (o : MsgOutcomes) :
    (processMessage um tg folder s m o).counters.totalProcessedMessages =
      s.counters.totalProcessedMessages + 1 := by
  simp only [processMessage]
  repeat' split
  all_goals simp [downloadMessage_keeps_processed,
    uploadMessage_keeps_processed]

/-- Runs the per-message pipeline over a chunk (or any list) of
messages, each with its own transport outcomes, threading the state as
the Batch Scheduler's accounting does. -/
def runChunk (um : Bool) (tg : Option Int) (folder : String)
    (s : DlState) : List (Message × MsgOutcomes) → DlState
  | [] => s
  | it :: rest =>
    runChunk um tg folder (processMessage um tg folder s it.1 it.2) rest

/-- Claim C2: per-message failures (throwing download or upload calls)
are absorbed inside the per-message pipeline: `processMessage` returns
normally for every combination of transport outcomes — including ones
where every modelled network call throws — and still increments
`totalProcessedMessages` by one; consequently a whole chunk of failing
messages is processed to completion, adding exactly the chunk length to
the processed counter, so neither the chunk nor the run is aborted. -/
theorem C2_per_message_failure_isolated :
    (∀ (um : Bool) (tg : Option Int) (folder : String) (s : DlState)
        (m : Message) (o : MsgOutcomes),
        (processMessage um tg folder s m o).counters.totalProcessedMessages =
          s.counters.totalProcessedMessages + 1)
  ∧ (∀ (um : Bool) (tg : Option Int) (folder : String) (s : DlState)
        (items : List (Message × MsgOutcomes)),
        (runChunk um tg folder s items).counters.totalProcessedMessages =
          s.counters.totalProcessedMessages + items.length) := by
  refine ⟨processMessage_processed_succ, ?_⟩
  intro um tg folder s items
  induction items generalizing s with
  | nil => simp [runChunk]
  | cons it rest ih =>
    simp [runChunk, ih, processMessage_processed_succ]
    omega

/-! ## Batch Scheduler (`downloadChannel`, batch construction and
execution loops)

`downloadChannel` first builds the batches:

* `for (let i = 0; i < messagesToProcess.length; i += MAX_PARALLEL_PROCESS)
  { const batch = messagesToProcess.slice(i, i + MAX_PARALLEL_PROCESS);
  const batchPromises = batch.map((msg, index) => this.processMessage(...));
  processPromises.push(Promise.all(batchPromises)); }`

and then awaits them:

* `for (let i = 0; i < processPromises.length; i++) { await
  processPromises[i]; if (i < processPromises.length - 1) await
  this.wait(RATE_LIMIT_DELAY); } }`

Calling an async function executes it immediately up to its first
suspension point, and the construction loop is synchronous JavaScript:
every `processMessage` invocation therefore starts during batch
construction, before the event loop regains control, and hence before
any invocation completes.  Completions are only observed at the `await`
of each chunk in the execution loop, with the inter-chunk delay between
consecutive awaits.  The trace below serializes exactly this order:
first a start event per message (construction loop order), then per
chunk its finish events, separated by single delay events. -/

/-- `MAX_PARALLEL_PROCESS` of the source. -/
def MAX_PARALLEL_PROCESS : Nat := 5

/-- The slice loop: contiguous chunks of `MAX_PARALLEL_PROCESS` = 5. -/
def chunksOf5 : List α → List (List α)
  | [] => []
  | [a] => [[a]]
  | [a, b] => [[a, b]]
  | [a, b, c] => [[a, b, c]]
  | [a, b, c, d] => [[a, b, c, d]]
  | a :: b :: c :: d :: e :: rest => [a, b, c, d, e] :: chunksOf5 rest

inductive SchedEvent where
  /-- The pipeline invocation for message index `i` begins executing. -/
  | start (i : Nat)
  /-- The pipeline invocation for message index `i` is complete (its
  chunk's `Promise.all` resolves no earlier than this). -/
  | finish (i : Nat)
  /-- The inter-chunk `wait(RATE_LIMIT_DELAY)`. -/
  | chunkDelay
deriving Repr, DecidableEq

/-- The scheduler's event trace for a page of `n` filtered messages:
all starts (emitted synchronously by the construction loop), then each
chunk's finishes with exactly one delay between consecutive chunks. -/
def schedulerTrace (n : Nat) : List SchedEvent :=
  ((List.range n).map SchedEvent.start) ++
    List.intercalate [SchedEvent.chunkDelay]
      ((chunksOf5 (List.range n)).map (fun c => c.map SchedEvent.finish))

/-- Claim C1 at the failing input, a page of 7 filtered messages: the
partition is contiguous with chunk sizes [5, 2] and the inter-chunk
delay happens exactly once, not after the last chunk — but the second
chunk's invocations (message index 5) start before any first-chunk
invocation (message index 0) finishes, because all per-message
invocations are launched synchronously while the batch promises are
being constructed.  This contradicts the claim (and the source's own
"Process 5 messages in parallel" comments), which require chunk 1 to
finish before chunk 2 starts. -/
theorem C1_scheduler_starts_all_chunks_eagerly :
    (chunksOf5 (List.range 7)).map List.length = [5, 2]
  ∧ (chunksOf5 (List.range 7)).flatten = List.range 7
  ∧ (schedulerTrace 7).count SchedEvent.chunkDelay = 1
  ∧ (schedulerTrace 7).getLast? = some (SchedEvent.finish 6)
  ∧ (schedulerTrace 7).findIdx (· == SchedEvent.start 5) <
      (schedulerTrace 7).findIdx (· == SchedEvent.finish 0) := by
  refine ⟨by decide, by decide, by decide, by decide, by decide⟩

end TgDl
